import Mathlib

/-!
Verification of the multi-critic evaluation core of `critic.py`
(Trading-Intent-Fidelity-Benchmark).

Strings are modelled as `List Char`.  Python's `str.strip`, `str.split('\n')`,
`str.lower` and `str.format` are embedded as executable functions below; the
judge registry, the prompt templates, the invoker `generate_critic`, the
last-line verdict extraction and the consensus computation of `main` are
translated directly from the source.
-/

namespace Critic

/-- Strings of the Python program, modelled as lists of characters. -/
abbrev Str := List Char

/-- Whitespace test used by Python's `str.strip` (ASCII range: space, tab,
newline, carriage return, vertical tab `\x0b`, form feed `\x0c`). -/
def pyIsSpace (c : Char) : Bool :=
  c == ' ' || c == '\t' || c == '\n' || c == '\r' || c == Char.ofNat 11 || c == Char.ofNat 12

/-- Python `str.lstrip()` restricted to one side: drop leading whitespace. -/
def pyLStrip (l : Str) : Str := l.dropWhile pyIsSpace

/-- Python `str.rstrip()`: drop trailing whitespace. -/
def pyRStrip (l : Str) : Str := (l.reverse.dropWhile pyIsSpace).reverse

/-- Python `str.strip()`: drop whitespace on both ends. -/
def pyStrip (l : Str) : Str := pyLStrip (pyRStrip l)

/-- Python `str.lower` on a single character (ASCII range, via `Char.toLower`;
this is extensionally adequate for the comparisons the program performs,
which are against the ASCII words `"yes"`, `"no"` and the registry keys). -/
def pyLowerChar (c : Char) : Char := c.toLower

/-- Python `str.lower` (ASCII range). -/
def pyLower (l : Str) : Str := l.map pyLowerChar

/-- Python `str.split('\n')`: split on every newline, keeping empty pieces;
the result is always non-empty (`"".split('\n') == ['']`). -/
def pySplitLines : Str → List Str
  | [] => [[]]
  | c :: rest =>
    if c = '\n' then [] :: pySplitLines rest
    else
      match pySplitLines rest with
      | [] => [[c]]
      | h :: t => (c :: h) :: t

/-- `lines[-1]` for a non-empty `lines` list (the list produced by
`pySplitLines` is never empty, see `pySplitLines_ne_nil`). -/
def lastLine (l : Str) : Str := (pySplitLines l).getLastD []

/-- The verdict extraction of `main` (and `format_critique_output`):
`lines = critique.strip().split('\n'); verdict = lines[-1].strip() if lines else "Error"`.
The guard `if lines` is Python truthiness on the list; the split result is
never empty, so the `"Error"` default is dead code. -/
def extractVerdict (critique : Str) : Str :=
  match pySplitLines (pyStrip critique) with
  | [] => "Error".data
  | h :: t => pyStrip ((h :: t).getLastD [])

/-- The three-valued verdict of the specification. -/
inductive Verdict where
  | Approve
  | Reject
  | Unknown
  deriving DecidableEq, Repr

/-- Classification of an extracted verdict token:
`verdict.lower() == 'yes'` counts as approval, `== 'no'` as rejection,
anything else is unknown. -/
def classifyToken (v : Str) : Verdict :=
  if pyLower v = "yes".data then Verdict.Approve
  else if pyLower v = "no".data then Verdict.Reject
  else Verdict.Unknown

/-- Verdict parsed from one raw critique text: extraction followed by
classification. -/
def parseVerdict (critique : Str) : Verdict :=
  classifyToken (extractVerdict critique)

/-- The consensus classification of the specification. -/
inductive Consensus where
  | UnanimousApprove
  | UnanimousReject
  | Mixed
  deriving DecidableEq, Repr

/-- `sum(1 for v in verdicts if v.lower() == 'yes')` from `main`. -/
def yesCount (verdicts : List Str) : Nat :=
  verdicts.countP (fun v => pyLower v == "yes".data)

/-- `sum(1 for v in verdicts if v.lower() == 'no')` from `main`. -/
def noCount (verdicts : List Str) : Nat :=
  verdicts.countP (fun v => pyLower v == "no".data)

/-- The consensus branch of `main` (lines 218-228), over the list of extracted
verdict strings: all-yes prints the unanimous-approve message, else all-no the
unanimous-reject message, else the mixed message. -/
def consensusOf (verdicts : List Str) : Consensus :=
  if yesCount verdicts = verdicts.length then Consensus.UnanimousApprove
  else if noCount verdicts = verdicts.length then Consensus.UnanimousReject
  else Consensus.Mixed

/-- Occurrences of one verdict value in a run. -/
def countVerdict (x : Verdict) (vs : List Verdict) : Nat :=
  vs.countP (fun v => v == x)

/-- The same consensus computation at the level of parsed `Verdict`s
(`consensusOf_eq_classifyVerdicts` proves the correspondence). -/
def classifyVerdicts (vs : List Verdict) : Consensus :=
  if countVerdict Verdict.Approve vs = vs.length then Consensus.UnanimousApprove
  else if countVerdict Verdict.Reject vs = vs.length then Consensus.UnanimousReject
  else Consensus.Mixed

/-- `CRITIC_MODEL_LIST` from the source: the static judge registry. -/
def CRITIC_MODEL_LIST : List (Str × Str) :=
  [("gemini".data, "google/gemini-2.5-pro".data),
   ("openai".data, "openai/gpt-4.1".data),
   ("deepseek".data, "deepseek/deepseek-chat-v3.1".data)]

/-- `CRITIC_MODEL_LIST.get(model_choice.lower())` from `generate_critic`. -/
def resolveJudge (model_choice : Str) : Option Str :=
  List.lookup (pyLower model_choice) CRITIC_MODEL_LIST

/-- `CRITIC_SYSTEM_PROMPT` from the source. -/
def CRITIC_SYSTEM_PROMPT : Str :=
  ("You are a critic agent. Your job is to check if a proposed trading strategy matches the user's original request.\n\n## Your Task\n1. Analyze whether the strategy correctly and fully addresses the user request.\n2. If it does, explain briefly why.\n3. If it does not, point out the specific gaps, mistakes, or mismatches.\n4. Be strict: even small missing requirements should be flagged.\n\nCRITICAL: Provide your reasoning first, then end your response with ONLY \"Yes\" or \"No\" on the last line. DO NOT use JSON format.").data

/-- `CRITIC_PROMPT` from the source: the user-message template with three
named substitution fields. -/
def CRITIC_PROMPT : Str :=
  ("## User Request (Prompt)\n{prompt}\n\n## Generated Strategy\n{strategy_output}\n\n## Code\n{code}\n").data

/-- The opening-brace character of a format field. -/
def lbrace : Char := Char.ofNat 123

/-- The closing-brace character of a format field. -/
def rbrace : Char := Char.ofNat 125

/-- Worker for Python `str.format` with simple named fields, as used on
`CRITIC_PROMPT`.  The first argument is `none` outside a field and
`some acc` (reversed field-name accumulator) inside one.  Substituted
values are not rescanned, matching Python.  (Escaped braces and an
unterminated field do not occur in the fixed template and are not
modelled: an unterminated field yields the empty remainder.) -/
def pyFormatGo (env : Str → Str) : Option Str → Str → Str
  | none, [] => []
  | none, c :: rest =>
    if c = lbrace then pyFormatGo env (some []) rest
    else c :: pyFormatGo env none rest
  | some _, [] => []
  | some acc, c :: rest =>
    if c = rbrace then env acc.reverse ++ pyFormatGo env none rest
    else pyFormatGo env (some (c :: acc)) rest

/-- Python `template.format(**env)` with simple named fields. -/
def pyFormat (env : Str → Str) (template : Str) : Str :=
  pyFormatGo env none template

/-- The keyword environment of the `CRITIC_PROMPT.format(...)` call:
`prompt`, `strategy_output` and `code`.  (Other names would raise `KeyError`
in Python; the fixed template mentions only these three.) -/
def fmtEnv (user_prompt strategy_output code : Str) : Str → Str :=
  fun name =>
    if name = "prompt".data then user_prompt
    else if name = "strategy_output".data then strategy_output
    else if name = "code".data then code
    else []

/-- The user-message text handed to the transport:
`CRITIC_PROMPT.format(prompt=..., strategy_output=..., code=...)`. -/
def critic_user_message (user_prompt strategy_output code : Str) : Str :=
  pyFormat (fmtEnv user_prompt strategy_output code) CRITIC_PROMPT

/-- The argument record of one `client.chat.completions.create` call. -/
structure TransportRequest where
  model : Str
  system_message : Str
  user_message : Str
  max_completion_tokens : Nat
  temperature : ℚ
  deriving DecidableEq, Repr

/-- The transport call built by `generate_critic` for a resolved model:
`max_completion_tokens=2000 if model_choice != "openai" else 10000`,
`temperature=0.3`. -/
def buildRequest (model model_choice user_prompt strategy_output code : Str) :
    TransportRequest :=
  { model := model
    system_message := CRITIC_SYSTEM_PROMPT
    user_message := critic_user_message user_prompt strategy_output code
    max_completion_tokens := if model_choice ≠ "openai".data then 2000 else 10000
    temperature := 3 / 10 }

/-- `f"Error: Unknown model '{model_choice}'"` from `generate_critic`. -/
def unknownModelMsg (model_choice : Str) : Str :=
  "Error: Unknown model '".data ++ model_choice ++ "'".data

/-- `f"Error during API call to {model_choice}: {e}"` from `generate_critic`. -/
def apiErrorMsg (model_choice : Str) (e : Str) : Str :=
  "Error during API call to ".data ++ model_choice ++ ": ".data ++ e

/-- Result of one invocation.  `critique` and `model` are the two components
of the Python return tuple; `succeeded` and `transport_request` are
instrumentation of the embedding recording which branch returned and which
transport call (if any) was issued. -/
structure InvokeResult where
  critique : Str
  model : Str
  succeeded : Bool
  transport_request : Option TransportRequest
  deriving DecidableEq, Repr

/-- `generate_critic` from the source.  The external transport is a parameter:
`Except.ok` is a returned message content, `Except.error e` models a raised
exception whose `str` is `e` — the `try/except` of the source catches it and
returns the error text instead.  The `model = []` test is the second half of
Python's falsy test `if not model` (the registry holds no empty values, so it
is dead for this registry). -/
def generate_critic (transport : TransportRequest → Except Str Str)
    (model_choice user_prompt strategy_output code : Str) : InvokeResult :=
  match resolveJudge model_choice with
  | none =>
    { critique := unknownModelMsg model_choice, model := model_choice
      succeeded := false, transport_request := none }
  | some model =>
    if model = [] then
      { critique := unknownModelMsg model_choice, model := model_choice
        succeeded := false, transport_request := none }
    else
      let req := buildRequest model model_choice user_prompt strategy_output code
      match transport req with
      | Except.ok critique =>
        { critique := critique, model := model
          succeeded := true, transport_request := some req }
      | Except.error e =>
        { critique := apiErrorMsg model_choice e, model := model
          succeeded := false, transport_request := some req }

/-- The collection loop of `main` (lines 192-201): one `generate_critic` call
per requested judge identifier, in list order. -/
def runJudges (transport : TransportRequest → Except Str Str)
    (models : List Str) (user_prompt strategy_output code : Str) :
    List InvokeResult :=
  models.map (fun mc => generate_critic transport mc user_prompt strategy_output code)

/-- The verdict-string extraction loop of `main` (lines 210-214), one verdict
per collected result. -/
def summaryVerdicts (results : List InvokeResult) : List Str :=
  results.map (fun r => extractVerdict r.critique)

/-- Blank line: every character is whitespace (an empty line in the sense of
the parsing policy, which trims each candidate line). -/
def isBlankLine (l : Str) : Bool := l.all pyIsSpace

/-- Specification-side reading of the parsing policy: split the raw response
on line breaks and take the last line that is non-empty after trimming. -/
def specLastNonEmpty (raw : Str) : Option Str :=
  ((pySplitLines raw).filter (fun l => !(isBlankLine l))).getLast?

/-- Specification-side parser: the trimmed text of the last non-empty line,
classified case-insensitively; Unknown when no such line exists. -/
def specParse (raw : Str) : Verdict :=
  match specLastNonEmpty raw with
  | some l => classifyToken (pyStrip l)
  | none => Verdict.Unknown

/-- Modelled from the spec: the user-message text the specification
describes — three labeled sections, the request text, the artifact
description and the code, concatenated under their headings (§6). -/
def specUserMessage (user_prompt strategy_output code : Str) : Str :=
  "## User Request (Prompt)\n".data ++
    (user_prompt ++
      ("\n\n## Generated Strategy\n".data ++
        (strategy_output ++ ("\n\n## Code\n".data ++ (code ++ "\n".data)))))

/-! ### Aggregation lemmas -/

/-- A verdict count saturates the length exactly when the run is unanimous. -/
theorem countVerdict_eq_length_iff (x : Verdict) (vs : List Verdict) :
    countVerdict x vs = vs.length ↔ ∀ v ∈ vs, v = x := by
  simp [countVerdict, List.countP_eq_length]

/-- The three verdict counts of any run sum to its length. -/
theorem countVerdict_sum (vs : List Verdict) :
    countVerdict Verdict.Approve vs + countVerdict Verdict.Reject vs +
      countVerdict Verdict.Unknown vs = vs.length := by
  induction vs with
  | nil => rfl
  | cons v vs ih =>
    cases v <;> simp [countVerdict, List.countP_cons] at ih ⊢ <;> omega

/-- Per-token correspondence: a token counts for `yes_count` exactly when it
classifies as Approve. -/
theorem classifyToken_eq_approve_iff (v : Str) :
    classifyToken v = Verdict.Approve ↔ pyLower v = "yes".data := by
  by_cases h : pyLower v = "yes".data <;> simp [classifyToken, h]
  split <;> simp

/-- Per-token correspondence: a token counts for `no_count` exactly when it
classifies as Reject. -/
theorem classifyToken_eq_reject_iff (v : Str) :
    classifyToken v = Verdict.Reject ↔ pyLower v = "no".data := by
  by_cases h : pyLower v = "yes".data
  · have : pyLower v ≠ "no".data := by rw [h]; decide
    simp [classifyToken, h, this]
  · by_cases h2 : pyLower v = "no".data <;> simp [classifyToken, h, h2]

/-- The string-level consensus of `main` agrees with the verdict-level
consensus over the classified tokens. -/
theorem consensusOf_eq_classifyVerdicts (verdicts : List Str) :
    consensusOf verdicts = classifyVerdicts (verdicts.map classifyToken) := by
  have hy : yesCount verdicts =
      countVerdict Verdict.Approve (verdicts.map classifyToken) := by
    simp only [yesCount, countVerdict, List.countP_map]
    apply List.countP_congr
    intro v _
    simp [Function.comp, classifyToken_eq_approve_iff]
  have hn : noCount verdicts =
      countVerdict Verdict.Reject (verdicts.map classifyToken) := by
    simp only [noCount, countVerdict, List.countP_map]
    apply List.countP_congr
    intro v _
    simp [Function.comp, classifyToken_eq_reject_iff]
  simp [consensusOf, classifyVerdicts, hy, hn]

/-- C4: if every verdict is Approve the run is UnanimousApprove; else if every
verdict is Reject it is UnanimousReject; else it is Mixed — including the
listed mixed examples and every run containing an Unknown. -/
theorem aggregation_precedence (vs : List Verdict) :
    ((∀ v ∈ vs, v = Verdict.Approve) →
      classifyVerdicts vs = Consensus.UnanimousApprove) ∧
    (¬ (∀ v ∈ vs, v = Verdict.Approve) → (∀ v ∈ vs, v = Verdict.Reject) →
      classifyVerdicts vs = Consensus.UnanimousReject) ∧
    (¬ (∀ v ∈ vs, v = Verdict.Approve) → ¬ (∀ v ∈ vs, v = Verdict.Reject) →
      classifyVerdicts vs = Consensus.Mixed) ∧
    classifyVerdicts [Verdict.Approve, Verdict.Reject] = Consensus.Mixed ∧
    classifyVerdicts [Verdict.Unknown, Verdict.Unknown] = Consensus.Mixed ∧
    classifyVerdicts [Verdict.Approve, Verdict.Unknown] = Consensus.Mixed ∧
    (Verdict.Unknown ∈ vs → classifyVerdicts vs = Consensus.Mixed) := by
  refine ⟨?_, ?_, ?_, by decide, by decide, by decide, ?_⟩
  · intro h
    simp [classifyVerdicts, (countVerdict_eq_length_iff _ _).2 h]
  · intro hA hR
    have h1 : countVerdict Verdict.Approve vs ≠ vs.length :=
      fun hc => hA ((countVerdict_eq_length_iff _ _).1 hc)
    simp [classifyVerdicts, h1, (countVerdict_eq_length_iff _ _).2 hR]
  · intro hA hR
    have h1 : countVerdict Verdict.Approve vs ≠ vs.length :=
      fun hc => hA ((countVerdict_eq_length_iff _ _).1 hc)
    have h2 : countVerdict Verdict.Reject vs ≠ vs.length :=
      fun hc => hR ((countVerdict_eq_length_iff _ _).1 hc)
    simp [classifyVerdicts, h1, h2]
  · intro hU
    have h1 : countVerdict Verdict.Approve vs ≠ vs.length := fun hc => by
      have := (countVerdict_eq_length_iff _ _).1 hc _ hU
      simp at this
    have h2 : countVerdict Verdict.Reject vs ≠ vs.length := fun hc => by
      have := (countVerdict_eq_length_iff _ _).1 hc _ hU
      simp at this
    simp [classifyVerdicts, h1, h2]

/-- C4 witness: the precedence theorem evaluated on concrete runs. -/
theorem aggregation_precedence_witness :
    classifyVerdicts [Verdict.Approve, Verdict.Approve] = Consensus.UnanimousApprove ∧
    classifyVerdicts [Verdict.Reject, Verdict.Reject] = Consensus.UnanimousReject ∧
    classifyVerdicts [Verdict.Unknown, Verdict.Reject] = Consensus.Mixed :=
  ⟨(aggregation_precedence [Verdict.Approve, Verdict.Approve]).1 (by decide),
   (aggregation_precedence [Verdict.Reject, Verdict.Reject]).2.1
     (by decide) (by decide),
   (aggregation_precedence [Verdict.Unknown, Verdict.Reject]).2.2.1
     (by decide) (by decide)⟩

/-- C10: the empty run classifies as UnanimousApprove (the all-Approve branch
is vacuously satisfied first), both at verdict level and on the string-level
consensus of `main`, and all three counts are zero. -/
theorem empty_run_unanimous_approve :
    classifyVerdicts [] = Consensus.UnanimousApprove ∧
    consensusOf [] = Consensus.UnanimousApprove ∧
    countVerdict Verdict.Approve [] = 0 ∧
    countVerdict Verdict.Reject [] = 0 ∧
    countVerdict Verdict.Unknown [] = 0 := by
  decide

/-- C8: the i-th collected result and the i-th displayed verdict correspond to
the i-th judge identifier of the caller's list. -/
theorem judges_invoked_in_caller_order (t : TransportRequest → Except Str Str)
    (models : List Str) (p s c : Str) (i : Nat) :
    (runJudges t models p s c)[i]? =
      (models[i]?).map (fun mc => generate_critic t mc p s c) ∧
    (summaryVerdicts (runJudges t models p s c))[i]? =
      (models[i]?).map
        (fun mc => extractVerdict (generate_critic t mc p s c).critique) := by
  constructor
  · simp [runJudges, List.getElem?_map]
  · simp only [runJudges, summaryVerdicts, List.map_map, List.getElem?_map]
    rfl

/-! ### Case-insensitive resolution -/

/-- Evaluating `Char.ofNat` at a valid code point round-trips through
`toNat`. -/
theorem char_ofNat_toNat_valid (n : Nat) (hv : n.isValidChar) :
    (Char.ofNat n).toNat = n := by
  simp [Char.ofNat, hv, Char.ofNatAux, Char.toNat, UInt32.toNat]

/-- ASCII lowercasing is idempotent on characters. -/
theorem char_toLower_idem (c : Char) : c.toLower.toLower = c.toLower := by
  unfold Char.toLower
  by_cases h : c.toNat ≥ 65 ∧ c.toNat ≤ 90
  · rw [if_pos h]
    have hv : (c.toNat + 32).isValidChar := Or.inl (by omega)
    have ht : (Char.ofNat (c.toNat + 32)).toNat = c.toNat + 32 :=
      char_ofNat_toNat_valid _ hv
    rw [if_neg (by rw [ht]; omega)]
  · rw [if_neg h, if_neg h]

/-- Python `str.lower` is idempotent. -/
theorem pyLower_idem (s : Str) : pyLower (pyLower s) = pyLower s := by
  simp only [pyLower, pyLowerChar, List.map_map]
  exact List.map_congr_left (fun c _ => char_toLower_idem c)

/-- C9: registry resolution lowercases the identifier, so any identifier and
its lowercase form resolve to the same entry; `"GEMINI"` and `"gemini"` both
select the Gemini backend, and every registry key is already lowercase. -/
theorem resolution_case_insensitive :
    (∀ s : Str, resolveJudge s = resolveJudge (pyLower s)) ∧
    resolveJudge "GEMINI".data = some "google/gemini-2.5-pro".data ∧
    resolveJudge "gemini".data = some "google/gemini-2.5-pro".data ∧
    (CRITIC_MODEL_LIST.all (fun kv => pyLower kv.1 == kv.1)) = true := by
  refine ⟨?_, by decide, by decide, by decide⟩
  intro s
  simp [resolveJudge, pyLower_idem]

/-! ### Invoker claims -/

/-- C7: the constructed user message is exactly the template with the three
request fields substituted under their section headings, and two calls on
equal inputs produce identical text. -/
theorem user_message_deterministic (p s c p2 s2 c2 : Str) :
    critic_user_message p s c = specUserMessage p s c ∧
    (p = p2 → s = s2 → c = c2 →
      critic_user_message p s c = critic_user_message p2 s2 c2) := by
  refine ⟨rfl, ?_⟩
  intro h1 h2 h3
  rw [h1, h2, h3]

/-- C7 witness: the message theorem evaluated on concrete fields. -/
theorem user_message_deterministic_witness :
    critic_user_message "A".data "B".data "C".data =
      specUserMessage "A".data "B".data "C".data ∧
    critic_user_message "A".data "B".data "C".data =
      critic_user_message "A".data "B".data "C".data :=
  ⟨(user_message_deterministic "A".data "B".data "C".data
      "A".data "B".data "C".data).1,
   (user_message_deterministic "A".data "B".data "C".data
      "A".data "B".data "C".data).2 rfl rfl rfl⟩

/-- C3: invocation is total — an unresolvable identifier returns immediately
with `succeeded = false`, the unrecognized-identifier message and no transport
call; a transport exception is caught and converted into `succeeded = false`
with the error text, the transport call being the one built from the request
fields. -/
theorem invoke_total_error_absorption (t : TransportRequest → Except Str Str)
    (mc p s c : Str) :
    (resolveJudge mc = none →
      (generate_critic t mc p s c).succeeded = false ∧
      (generate_critic t mc p s c).transport_request = none ∧
      (generate_critic t mc p s c).critique = unknownModelMsg mc) ∧
    (∀ m, resolveJudge mc = some m → m ≠ [] → ∀ e,
      t (buildRequest m mc p s c) = Except.error e →
      (generate_critic t mc p s c).succeeded = false ∧
      (generate_critic t mc p s c).critique = apiErrorMsg mc e ∧
      (generate_critic t mc p s c).transport_request =
        some (buildRequest m mc p s c)) := by
  constructor
  · intro h
    simp [generate_critic, h]
  · intro m hm hne e he
    simp [generate_critic, hm, hne, he]

/-- C3 witness: the totality theorem evaluated on an unknown identifier and on
a raising transport. -/
theorem invoke_total_error_absorption_witness :
    ((generate_critic (fun _ => Except.error "boom".data) "nosuch".data
        [] [] []).succeeded = false ∧
     (generate_critic (fun _ => Except.error "boom".data) "nosuch".data
        [] [] []).transport_request = none ∧
     (generate_critic (fun _ => Except.error "boom".data) "nosuch".data
        [] [] []).critique = unknownModelMsg "nosuch".data) ∧
    ((generate_critic (fun _ => Except.error "boom".data) "gemini".data
        [] [] []).succeeded = false ∧
     (generate_critic (fun _ => Except.error "boom".data) "gemini".data
        [] [] []).critique = apiErrorMsg "gemini".data "boom".data ∧
     (generate_critic (fun _ => Except.error "boom".data) "gemini".data
        [] [] []).transport_request =
       some (buildRequest "google/gemini-2.5-pro".data "gemini".data [] [] [])) :=
  ⟨(invoke_total_error_absorption _ _ _ _ _).1 (by decide),
   (invoke_total_error_absorption _ _ _ _ _).2 _ (by decide) (by decide) _ rfl⟩

/-- C6 counterexample: invoking the large-cap judge through the identifier
`"OPENAI"` resolves to the openai entry (`openai/gpt-4.1`) but issues the
transport call with the small cap 2000 instead of 10000 — the cap comparison
`model_choice != "openai"` is case-sensitive while resolution lowercases. -/
theorem openai_cap_counterexample :
    (generate_critic (fun _ => Except.ok "ok".data) "OPENAI".data
        [] [] []).transport_request =
      some (buildRequest "openai/gpt-4.1".data "OPENAI".data [] [] []) ∧
    (buildRequest "openai/gpt-4.1".data "OPENAI".data [] [] []).model =
      "openai/gpt-4.1".data ∧
    (buildRequest "openai/gpt-4.1".data "OPENAI".data
        [] [] []).max_completion_tokens = 2000 ∧
    (2000 : Nat) ≠ 10000 :=
  ⟨rfl, rfl, rfl, by decide⟩

/-- C6 amended: the registry holds three judges and 10000 is five times 2000;
the larger cap is used exactly when the identifier string is literally
`"openai"` — any other identifier, including other capitalizations that still
resolve to the openai entry, gets the smaller cap. -/
theorem cap_keyed_on_exact_identifier :
    CRITIC_MODEL_LIST.length = 3 ∧
    (10000 : Nat) = 5 * 2000 ∧
    (∀ t p s c r,
      (generate_critic t "openai".data p s c).transport_request = some r →
      r.max_completion_tokens = 10000) ∧
    (∀ t mc p s c r, mc ≠ "openai".data →
      (generate_critic t mc p s c).transport_request = some r →
      r.max_completion_tokens = 2000) := by
  refine ⟨rfl, rfl, ?_, ?_⟩
  · intro t p s c r h
    unfold generate_critic at h
    split at h
    · simp at h
    · next m heq =>
      split at h
      · simp at h
      · cases ht : t (buildRequest m "openai".data p s c) <;>
          simp [ht] at h <;> rw [← h] <;>
          (simp only [buildRequest]; rw [if_neg (by decide)])
  · intro t mc p s c r hmc h
    unfold generate_critic at h
    split at h
    · simp at h
    · next m heq =>
      split at h
      · simp at h
      · cases ht : t (buildRequest m mc p s c) <;>
          simp [ht] at h <;> rw [← h] <;>
          (simp only [buildRequest]; rw [if_pos hmc])

/-- C6 amended witness: the cap theorem evaluated on the exact identifiers. -/
theorem cap_keyed_on_exact_identifier_witness :
    (buildRequest "openai/gpt-4.1".data "openai".data
        [] [] []).max_completion_tokens = 10000 ∧
    (buildRequest "google/gemini-2.5-pro".data "gemini".data
        [] [] []).max_completion_tokens = 2000 :=
  ⟨cap_keyed_on_exact_identifier.2.2.1 (fun _ => Except.ok "ok".data)
     [] [] [] _ rfl,
   cap_keyed_on_exact_identifier.2.2.2 (fun _ => Except.ok "ok".data)
     "gemini".data [] [] [] _ (by decide) rfl⟩

/-- C2 counterexample: a failed invocation (transport exception whose text
ends in a line `Yes`) yields `succeeded = false`, yet its raw response parses
to Approve, not Unknown. -/
theorem failed_result_parses_approve :
    (generate_critic (fun _ => Except.error "boom\nYes".data) "gemini".data
        [] [] []).succeeded = false ∧
    parseVerdict (generate_critic (fun _ => Except.error "boom\nYes".data)
        "gemini".data [] [] []).critique = Verdict.Approve := by
  constructor
  · rfl
  · decide

/-- C5 counterexample: a run over one judge whose invocation fails with an
exception text ending in `Yes` still produces one result, but that failed
judge's verdict is Approve — the failure is not degraded to Unknown. -/
theorem failed_judge_not_degraded_to_unknown :
    ((runJudges (fun _ => Except.error "rate limit hit\nYes".data)
        ["gemini".data] [] [] []).map
      (fun r => (r.succeeded, classifyToken (extractVerdict r.critique)))) =
      [(false, Verdict.Approve)] := by
  decide

/-! ### Verdict-extraction lemmas -/


/-- Splitting the empty string yields one empty line. -/
theorem pySplitLines_nil : pySplitLines [] = [[]] := rfl

/-- Unfolding: a leading newline contributes an empty first line. -/
theorem pySplitLines_cons_newline (rest : Str) :
    pySplitLines ('\n' :: rest) = [] :: pySplitLines rest := by
  simp [pySplitLines]

/-- Python `split` never returns an empty list. -/
theorem pySplitLines_ne_nil (l : Str) : pySplitLines l ≠ [] := by
  cases l with
  | nil => simp [pySplitLines]
  | cons c rest =>
    simp only [pySplitLines]
    split
    · simp
    · split <;> simp

/-- Unfolding: a non-newline head extends the first line. -/
theorem pySplitLines_cons_other {c : Char} (hc : c ≠ '\n') {rest h : Str}
    {t : List Str} (hsp : pySplitLines rest = h :: t) :
    pySplitLines (c :: rest) = (c :: h) :: t := by
  simp [pySplitLines, hc, hsp]

/-- A string without newlines is its own single line. -/
theorem pySplitLines_eq_singleton {l : Str} (h : ('\n' : Char) ∉ l) :
    pySplitLines l = [l] := by
  induction l with
  | nil => rfl
  | cons c rest ih =>
    have hc : c ≠ '\n' := fun e => h (e ▸ List.mem_cons_self c rest)
    have hr : ('\n' : Char) ∉ rest := fun hm => h (List.mem_cons_of_mem _ hm)
    rw [pySplitLines_cons_other hc (ih hr)]

/-- A string containing a newline splits into at least two lines. -/
theorem two_le_length_pySplitLines {l : Str} (h : ('\n' : Char) ∈ l) :
    2 ≤ (pySplitLines l).length := by
  induction l with
  | nil => cases h
  | cons c rest ih =>
    by_cases hc : c = '\n'
    · subst hc
      rw [pySplitLines_cons_newline, List.length_cons]
      have h1 : pySplitLines rest ≠ [] := pySplitLines_ne_nil rest
      have h2 : 0 < (pySplitLines rest).length := List.length_pos.mpr h1
      omega
    · have hr : ('\n' : Char) ∈ rest := by
        rcases List.mem_cons.mp h with h1 | h2
        · exact absurd h1.symm hc
        · exact h2
      cases hsp : pySplitLines rest with
      | nil => exact absurd hsp (pySplitLines_ne_nil rest)
      | cons a t =>
        rw [pySplitLines_cons_other hc hsp, List.length_cons]
        have h3 := ih hr
        rw [hsp, List.length_cons] at h3
        omega

/-- Every character of every line comes from the split string. -/
theorem mem_of_mem_pySplitLines {l x : Str} (hx : x ∈ pySplitLines l)
    {c : Char} (hc : c ∈ x) : c ∈ l := by
  induction l generalizing x with
  | nil =>
    simp [pySplitLines] at hx
    subst hx
    cases hc
  | cons a rest ih =>
    by_cases ha : a = '\n'
    · subst ha
      rw [pySplitLines_cons_newline] at hx
      rcases List.mem_cons.mp hx with h1 | h2
      · subst h1; cases hc
      · exact List.mem_cons_of_mem _ (ih h2 hc)
    · cases hsp : pySplitLines rest with
      | nil => exact absurd hsp (pySplitLines_ne_nil rest)
      | cons hh t =>
        rw [pySplitLines_cons_other ha hsp] at hx
        rcases List.mem_cons.mp hx with h1 | h2
        · subst h1
          rcases List.mem_cons.mp hc with h3 | h4
          · exact h3 ▸ List.mem_cons_self a rest
          · exact List.mem_cons_of_mem _
              (ih (hsp ▸ List.mem_cons_self hh t) h4)
        · exact List.mem_cons_of_mem _
            (ih (hsp ▸ List.mem_cons_of_mem hh h2) hc)

/-- Appending a newline appends an empty line. -/
theorem pySplitLines_append_newline (u : Str) :
    pySplitLines (u ++ ['\n']) = pySplitLines u ++ [[]] := by
  induction u with
  | nil => rfl
  | cons c u ih =>
    by_cases hc : c = '\n'
    · subst hc
      rw [List.cons_append, pySplitLines_cons_newline, ih,
        pySplitLines_cons_newline, List.cons_append]
    · cases hsp : pySplitLines u with
      | nil => exact absurd hsp (pySplitLines_ne_nil u)
      | cons h t =>
        have hsp2 : pySplitLines (u ++ ['\n']) = h :: (t ++ [[]]) := by
          rw [ih, hsp, List.cons_append]
        rw [List.cons_append, pySplitLines_cons_other hc hsp2,
          pySplitLines_cons_other hc hsp, List.cons_append]

/-- The default of `getLastD` is irrelevant on a non-empty list. -/
theorem getLastD_of_ne_nil {α : Type} (t : List α) (ht : t ≠ []) (d1 d2 : α) :
    t.getLastD d1 = t.getLastD d2 := by
  cases hx : t.getLast? with
  | none => exact absurd (List.getLast?_eq_none_iff.mp hx) ht
  | some x => simp [List.getLastD_eq_getLast?, hx]

/-- The last line ignores a leading newline. -/
theorem lastLine_cons_newline (u : Str) :
    lastLine ('\n' :: u) = lastLine u := by
  unfold lastLine
  rw [pySplitLines_cons_newline, List.getLastD_cons]

/-- On a single-line tail, a non-newline head joins the last line. -/
theorem lastLine_cons_singleton {c : Char} (hc : c ≠ '\n') {u h : Str}
    (hsp : pySplitLines u = [h]) : lastLine (c :: u) = c :: h := by
  unfold lastLine
  rw [pySplitLines_cons_other hc hsp]
  rfl

/-- A single-line split determines the last line. -/
theorem lastLine_eq_of_singleton {u h : Str} (hsp : pySplitLines u = [h]) :
    lastLine u = h := by
  unfold lastLine
  rw [hsp]
  rfl

/-- With at least two lines, the last line ignores a prepended character. -/
theorem lastLine_cons_multi {c : Char} (hc : c ≠ '\n') {u h y : Str}
    {t2 : List Str} (hsp : pySplitLines u = h :: y :: t2) :
    lastLine (c :: u) = lastLine u := by
  unfold lastLine
  rw [pySplitLines_cons_other hc hsp, hsp]
  simp only [List.getLastD_cons]

/-- Appending a non-newline character extends the last line in place. -/
theorem pySplitLines_append_char (u : Str) (a : Char) (ha : a ≠ '\n') :
    pySplitLines (u ++ [a]) =
      (pySplitLines u).dropLast ++ [lastLine u ++ [a]] := by
  induction u with
  | nil =>
    rw [List.nil_append, pySplitLines_cons_other ha pySplitLines_nil]
    rfl
  | cons c u ih =>
    by_cases hc : c = '\n'
    · subst hc
      cases hsp : pySplitLines u with
      | nil => exact absurd hsp (pySplitLines_ne_nil u)
      | cons h t =>
        rw [List.cons_append, pySplitLines_cons_newline, ih,
          pySplitLines_cons_newline, lastLine_cons_newline, hsp]
        rfl
    · cases hsp : pySplitLines u with
      | nil => exact absurd hsp (pySplitLines_ne_nil u)
      | cons h t =>
        cases t with
        | nil =>
          have hsp2 : pySplitLines (u ++ [a]) = [lastLine u ++ [a]] := by
            rw [ih, hsp]
            rfl
          rw [List.cons_append, pySplitLines_cons_other hc hsp2,
            pySplitLines_cons_other hc hsp, lastLine_cons_singleton hc hsp,
            lastLine_eq_of_singleton hsp]
          rfl
        | cons y t2 =>
          have hsp2 : pySplitLines (u ++ [a]) =
              h :: ((y :: t2).dropLast ++ [lastLine u ++ [a]]) := by
            rw [ih, hsp]
            rfl
          rw [List.cons_append, pySplitLines_cons_other hc hsp2,
            pySplitLines_cons_other hc hsp, lastLine_cons_multi hc hsp]
          rfl

/-- Right-stripping drops a trailing whitespace character. -/
theorem pyRStrip_append_space (u : Str) (a : Char) (ha : pyIsSpace a = true) :
    pyRStrip (u ++ [a]) = pyRStrip u := by
  unfold pyRStrip
  rw [List.reverse_append]
  simp [List.dropWhile_cons, ha]

/-- Right-stripping keeps a string ending in non-whitespace. -/
theorem pyRStrip_append_nonspace (u : Str) (a : Char)
    (ha : pyIsSpace a = false) : pyRStrip (u ++ [a]) = u ++ [a] := by
  unfold pyRStrip
  rw [List.reverse_append]
  simp [List.dropWhile_cons, ha]

/-- Stripping drops a trailing whitespace character. -/
theorem pyStrip_append_space (u : Str) (a : Char) (ha : pyIsSpace a = true) :
    pyStrip (u ++ [a]) = pyStrip u := by
  rw [pyStrip, pyRStrip_append_space u a ha, pyStrip]

/-- Stripping ignores an all-whitespace prefix. -/
theorem pyStrip_leading_ws (u v : Str) (h : ∀ x ∈ u, pyIsSpace x = true) :
    pyStrip (u ++ v) = pyStrip v := by
  unfold pyStrip pyRStrip pyLStrip
  rw [List.reverse_append, List.dropWhile_append]
  split
  · next hemp =>
    have hu : u.reverse.dropWhile pyIsSpace = [] :=
      List.dropWhile_eq_nil_iff.mpr (fun x hx => h x (List.mem_reverse.mp hx))
    have hv : v.reverse.dropWhile pyIsSpace = [] := by
      simpa using hemp
    rw [hu, hv]
  · next hne =>
    rw [List.reverse_append, List.reverse_reverse, List.dropWhile_append]
    have hu2 : u.dropWhile pyIsSpace = [] :=
      List.dropWhile_eq_nil_iff.mpr h
    simp [hu2]

/-- The last line of `w ++ [a]` (`a` not a newline) is that of `w` plus `a`. -/
theorem lastLine_append_char (w : Str) (a : Char) (ha : a ≠ '\n') :
    lastLine (w ++ [a]) = lastLine w ++ [a] := by
  unfold lastLine
  rw [pySplitLines_append_char w a ha, List.getLastD_concat]
  rfl

/-- The last line after a trailing newline is empty. -/
theorem lastLine_append_newline (w : Str) : lastLine (w ++ ['\n']) = [] := by
  unfold lastLine
  rw [pySplitLines_append_newline, List.getLastD_concat]

/-- Appending newline-free text extends the last line. -/
theorem lastLine_append_of_not_mem (u : Str) {v : Str}
    (h : ('\n' : Char) ∉ v) : lastLine (u ++ v) = lastLine u ++ v := by
  induction v using List.reverseRecOn with
  | nil => simp
  | append_singleton v a ih =>
    have ha : a ≠ '\n' := fun e => h (by simp [e])
    have hv : ('\n' : Char) ∉ v := fun hm => h (List.mem_append_left _ hm)
    rw [← List.append_assoc, lastLine_append_char _ _ ha, ih hv,
      List.append_assoc]

/-- A member splits a list at its last occurrence. -/
theorem exists_last_occurrence {v : Str} {c : Char} (h : c ∈ v) :
    ∃ v1 v2, v = v1 ++ c :: v2 ∧ c ∉ v2 := by
  induction v using List.reverseRecOn with
  | nil => cases h
  | append_singleton v a ih =>
    by_cases hac : a = c
    · subst hac
      exact ⟨v, [], by simp, by simp⟩
    · have hv : c ∈ v := by
        rcases List.mem_append.mp h with h1 | h2
        · exact h1
        · simp at h2
          exact absurd h2.symm hac
      obtain ⟨v1, v2, he, hn⟩ := ih hv
      refine ⟨v1, v2 ++ [a], by rw [he]; simp, ?_⟩
      simp only [List.mem_append, List.mem_singleton]
      rintro (h1 | h2)
      · exact hn h1
      · exact hac h2.symm

/-- The last line of `u ++ v` is that of `v` whenever `v` holds a newline. -/
theorem lastLine_append_of_mem (u : Str) {v : Str} (h : ('\n' : Char) ∈ v) :
    lastLine (u ++ v) = lastLine v := by
  obtain ⟨v1, v2, hv, hv2⟩ := exists_last_occurrence h
  subst hv
  rw [show u ++ (v1 ++ '\n' :: v2) = ((u ++ v1) ++ ['\n']) ++ v2 by simp,
    lastLine_append_of_not_mem _ hv2, lastLine_append_newline, List.nil_append]
  rw [show v1 ++ '\n' :: v2 = (v1 ++ ['\n']) ++ v2 by simp,
    lastLine_append_of_not_mem _ hv2, lastLine_append_newline, List.nil_append]

/-- Left-stripping before extraction does not change the stripped last line. -/
theorem pyStrip_lastLine_pyLStrip (z : Str) :
    pyStrip (lastLine (pyLStrip z)) = pyStrip (lastLine z) := by
  have hz : z.takeWhile pyIsSpace ++ z.dropWhile pyIsSpace = z :=
    List.takeWhile_append_dropWhile pyIsSpace z
  by_cases hn : ('\n' : Char) ∈ z.dropWhile pyIsSpace
  · conv_rhs => rw [← hz]
    rw [lastLine_append_of_mem _ hn]
    rfl
  · conv_rhs => rw [← hz]
    rw [lastLine_append_of_not_mem _ hn]
    have hw : ∀ x ∈ z.takeWhile pyIsSpace, pyIsSpace x = true :=
      fun x hx => List.mem_takeWhile_imp hx
    have hlw : ∀ x ∈ lastLine (z.takeWhile pyIsSpace), pyIsSpace x = true := by
      intro x hx
      refine hw x ?_
      have hmem : lastLine (z.takeWhile pyIsSpace) ∈
          pySplitLines (z.takeWhile pyIsSpace) := by
        unfold lastLine
        rw [List.getLastD_eq_getLast?]
        cases hg : (pySplitLines (z.takeWhile pyIsSpace)).getLast? with
        | none =>
          exact absurd (List.getLast?_eq_none_iff.mp hg)
            (pySplitLines_ne_nil _)
        | some y =>
          have : y ∈ (pySplitLines (z.takeWhile pyIsSpace)).getLast? := by
            rw [hg]; rfl
          simpa using List.mem_of_mem_getLast? this
      exact mem_of_mem_pySplitLines hmem hx
    rw [pyStrip_leading_ws _ _ hlw]
    have h2 : lastLine (z.dropWhile pyIsSpace) = z.dropWhile pyIsSpace :=
      lastLine_eq_of_singleton (pySplitLines_eq_singleton hn)
    show pyStrip (lastLine (z.dropWhile pyIsSpace)) = _
    rw [h2]

/-- The dead `\"Error\"` default eliminated: the extraction is strip, last line, strip. -/
theorem extractVerdict_eq (critique : Str) :
    extractVerdict critique = pyStrip (lastLine (pyStrip critique)) := by
  unfold extractVerdict lastLine
  cases h : pySplitLines (pyStrip critique) with
  | nil => exact absurd h (pySplitLines_ne_nil _)
  | cons a t => rfl

/-- The optional last element of the split is the last line. -/
theorem getLast?_pySplitLines (u : Str) :
    (pySplitLines u).getLast? = some (lastLine u) := by
  unfold lastLine
  rw [List.getLastD_eq_getLast?]
  cases hg : (pySplitLines u).getLast? with
  | none =>
    exact absurd (List.getLast?_eq_none_iff.mp hg) (pySplitLines_ne_nil u)
  | some y => rfl

/-- The split decomposes as its front plus its last line. -/
theorem pySplitLines_reconstruct (u : Str) :
    (pySplitLines u).dropLast ++ [lastLine u] = pySplitLines u :=
  List.dropLast_append_getLast? _ (by rw [getLast?_pySplitLines]; rfl)

/-- Key lemma: the verdict token the code extracts is the trimmed text of the last line that is non-empty after trimming (or empty when there is none). -/
theorem strip_token_eq_last_nonblank (raw : Str) :
    pyStrip (lastLine (pyStrip raw)) =
      (((pySplitLines raw).filter
          (fun l => !(isBlankLine l))).map pyStrip).getLastD [] := by
  induction raw using List.reverseRecOn with
  | nil => rfl
  | append_singleton u a ih =>
    cases hws : pyIsSpace a with
    | true =>
      rw [pyStrip_append_space u a hws, ih]
      by_cases hnl : a = '\n'
      · subst hnl
        rw [pySplitLines_append_newline, List.filter_append]
        simp [isBlankLine]
      · rw [pySplitLines_append_char u a hnl, List.filter_append]
        conv_lhs => rw [← pySplitLines_reconstruct u, List.filter_append]
        have hb : isBlankLine (lastLine u ++ [a]) = isBlankLine (lastLine u) := by
          simp [isBlankLine, List.all_append, hws]
        by_cases hblank : isBlankLine (lastLine u) = true
        · simp [hblank, hb]
        · simp [hblank, hb, List.map_append, List.getLastD_concat,
            pyStrip_append_space _ _ hws]
    | false =>
      have hnl : a ≠ '\n' := by
        intro e
        subst e
        have htn : pyIsSpace '\n' = true := by decide
        exact absurd (htn.symm.trans hws) (by decide)
      rw [show pyStrip (u ++ [a]) = pyLStrip (u ++ [a]) from by
        rw [pyStrip, pyRStrip_append_nonspace u a hws]]
      rw [pyStrip_lastLine_pyLStrip (u ++ [a]), lastLine_append_char u a hnl]
      rw [pySplitLines_append_char u a hnl, List.filter_append]
      have hnb : isBlankLine (lastLine u ++ [a]) = false := by
        simp [isBlankLine, List.all_append, hws]
      simp [hnb, List.map_append, List.getLastD_concat]

/-- C1: for every raw response the parsed verdict equals the specification's reading — the trimmed last non-empty line, matched case-insensitively against yes/no, Unknown otherwise (including an empty response). -/
theorem parse_matches_last_nonempty_line (raw : Str) :
    parseVerdict raw = specParse raw := by
  unfold parseVerdict specParse specLastNonEmpty
  rw [extractVerdict_eq, strip_token_eq_last_nonblank]
  cases hl : ((pySplitLines raw).filter (fun l => !(isBlankLine l))).getLast? with
  | none =>
    rw [List.getLast?_eq_none_iff.mp hl]
    rfl
  | some x =>
    have h2 : (((pySplitLines raw).filter
        (fun l => !(isBlankLine l))).map pyStrip).getLastD [] = pyStrip x := by
      rw [List.getLastD_eq_getLast?, List.getLast?_map, hl]
      rfl
    rw [h2]

/-- A response ending in a non-whitespace character yields a token ending in that character. -/
theorem extractVerdict_append_nonspace (u : Str) (q : Char)
    (hq : pyIsSpace q = false) :
    (extractVerdict (u ++ [q])).getLast? = some q := by
  rw [extractVerdict_eq]
  rw [show pyStrip (u ++ [q]) = pyLStrip (u ++ [q]) from by
    rw [pyStrip, pyRStrip_append_nonspace u q hq]]
  rw [pyStrip_lastLine_pyLStrip (u ++ [q])]
  have hnl : q ≠ '\n' := by
    intro e
    subst e
    exact absurd ((show pyIsSpace '\n' = true by decide).symm.trans hq) (by decide)
  rw [lastLine_append_char u q hnl]
  rw [pyStrip, pyRStrip_append_nonspace _ q hq]
  unfold pyLStrip
  rw [List.dropWhile_append]
  split
  · simp [List.dropWhile_cons, hq]
  · rw [List.getLast?_concat]

/-- A token whose final character does not lowercase to `s` or `o` cannot spell yes or no, hence classifies Unknown. -/
theorem classifyToken_unknown_of_getLast (v : Str) (q : Char)
    (h : v.getLast? = some q) (h1 : q.toLower ≠ 's') (h2 : q.toLower ≠ 'o') :
    classifyToken v = Verdict.Unknown := by
  have hy : pyLower v ≠ "yes".data := by
    intro he
    have h3 := congrArg List.getLast? he
    rw [pyLower, List.getLast?_map, h] at h3
    simp [pyLowerChar] at h3
    exact h1 h3
  have hn : pyLower v ≠ "no".data := by
    intro he
    have h3 := congrArg List.getLast? he
    rw [pyLower, List.getLast?_map, h] at h3
    simp [pyLowerChar] at h3
    exact h2 h3
  simp [classifyToken, hy, hn]

/-- The unrecognized-identifier message always parses to Unknown: its last line ends with an apostrophe. -/
theorem unknown_model_parses_unknown (mc : Str) :
    parseVerdict (unknownModelMsg mc) = Verdict.Unknown := by
  have hdecomp : unknownModelMsg mc =
      ("Error: Unknown model '".data ++ mc) ++ [Char.ofNat 39] := by
    unfold unknownModelMsg
    rw [List.append_assoc]
  rw [parseVerdict, hdecomp]
  exact classifyToken_unknown_of_getLast _ _
    (extractVerdict_append_nonspace _ _ (by decide)) (by decide) (by decide)

/-- C2 amended: a failed result is parsed from its text alone — the unrecognized-identifier message always parses to Unknown, while a transport-error message can parse to Approve when the exception text ends in a yes line. -/
theorem failed_result_parse_characterization :
    (∀ mc : Str, parseVerdict (unknownModelMsg mc) = Verdict.Unknown) ∧
    (∃ mc e : Str, parseVerdict (apiErrorMsg mc e) = Verdict.Approve) :=
  ⟨unknown_model_parses_unknown,
   ⟨"gemini".data, "boom\nYes".data, by decide⟩⟩

/-- C5 amended: a run yields exactly one result and one verdict per requested identifier, the three verdict counts sum to the number of identifiers, no failure aborts the run, and an unresolvable identifier's verdict is Unknown (a transport failure's verdict is parsed from its error text, see the counterexample). -/
theorem run_one_verdict_per_judge (t : TransportRequest → Except Str Str)
    (models : List Str) (p s c : Str) :
    (runJudges t models p s c).length = models.length ∧
    (summaryVerdicts (runJudges t models p s c)).length = models.length ∧
    countVerdict Verdict.Approve
        ((summaryVerdicts (runJudges t models p s c)).map classifyToken) +
      countVerdict Verdict.Reject
        ((summaryVerdicts (runJudges t models p s c)).map classifyToken) +
      countVerdict Verdict.Unknown
        ((summaryVerdicts (runJudges t models p s c)).map classifyToken) =
      models.length ∧
    (∀ mc, resolveJudge mc = none →
      parseVerdict (generate_critic t mc p s c).critique = Verdict.Unknown) := by
  refine ⟨by simp [runJudges], by simp [summaryVerdicts, runJudges], ?_, ?_⟩
  · rw [countVerdict_sum]
    simp [summaryVerdicts, runJudges]
  · intro mc h
    have hcrit : (generate_critic t mc p s c).critique = unknownModelMsg mc := by
      simp [generate_critic, h]
    rw [hcrit]
    exact unknown_model_parses_unknown mc

/-- C5 amended witness: the run theorem evaluated on a two-judge list with a raising transport. -/
theorem run_one_verdict_per_judge_witness :
    (runJudges (fun _ => Except.error "x".data)
      ["gemini".data, "nosuch".data] [] [] []).length = 2 ∧
    parseVerdict (generate_critic (fun _ => Except.error "x".data)
      "nosuch".data [] [] []).critique = Verdict.Unknown :=
  ⟨(run_one_verdict_per_judge (fun _ => Except.error "x".data)
      ["gemini".data, "nosuch".data] [] [] []).1,
   (run_one_verdict_per_judge (fun _ => Except.error "x".data)
      ["gemini".data, "nosuch".data] [] [] []).2.2.2 "nosuch".data (by decide)⟩

end Critic
